import Mathlib

/-!
Verification of the event-dispatch and comment-command core of the
EESSI build-and-deploy bot (event handler for GitHub webhook events).

The embedding below models:
* `get_bot_command` (tools/commands.py, modelled from the spec),
* the comment diffing, command scanning and self-command guard of
  `handle_issue_comment_event` (eessi_bot_event_handler.py),
* the label dispatch of `handle_pull_request_labeled_event`
  (eessi_bot_event_handler.py),
* `update_comment` (tools/pr_comments.py, modelled from the spec and the
  call counts observed by its tests in src/tests/test_tools_pr_comments.py).

Strings are treated as lists of unicode characters, matching Python's
view of `str` as a sequence of code points; all definitions are
structurally recursive so that they evaluate inside the kernel.
-/

namespace EessiBot

/-- Boolean check that the first list is an initial segment of the second
(character-level embedding of Python's `str.startswith`). -/
def leadsWith : List Char → List Char → Bool
  | [], _ => true
  | _ :: _, [] => false
  | a :: as, b :: bs => if a = b then leadsWith as bs else false

/-- Boolean check that `pat` occurs contiguously somewhere in the list. -/
def hasRun (pat : List Char) : List Char → Bool
  | [] => leadsWith pat []
  | c :: cs => leadsWith pat (c :: cs) || hasRun pat cs

/-- Remove trailing whitespace characters. -/
def dropTrailingWS (l : List Char) : List Char :=
  (l.reverse.dropWhile Char.isWhitespace).reverse

/-- Remove leading and trailing whitespace characters (embedding of
Python's `str.strip`). -/
def stripChars (l : List Char) : List Char :=
  dropTrailingWS (l.dropWhile Char.isWhitespace)

/-- Collapse every run of whitespace characters into a single space.
The boolean records whether the previously seen character was whitespace
(so that only the first whitespace of a run emits a space). -/
def collapseWSAux : List Char → Bool → List Char
  | [], _ => []
  | c :: cs, prevWS =>
    if c.isWhitespace then
      if prevWS then collapseWSAux cs true else ' ' :: collapseWSAux cs true
    else c :: collapseWSAux cs false

/-- Split a character list at newline characters; embedding of Python's
`str.split` with separator a newline, so the empty string yields one empty
line and a trailing newline yields a trailing empty line. -/
def splitLinesAux : List Char → List Char → List String
  | [], acc => [String.mk acc.reverse]
  | c :: cs, acc =>
    if c = '\n' then String.mk acc.reverse :: splitLinesAux cs []
    else splitLinesAux cs (c :: acc)

/-- Embedding of Python's `s.split` at newlines on strings. -/
def splitLines (s : String) : List String :=
  splitLinesAux s.data []

/-- Embedding of Python's slice `s[n:]` (drop the first `n` code points). -/
def pySlice (s : String) (n : Nat) : String :=
  String.mk (s.data.drop n)

/-- The fixed token that opens every bot command line. -/
def botCommandToken : String := "bot: "

/-- Modelled from the spec: `get_bot_command` of tools/commands.py is not
part of the sources at hand (only its caller is).  Per the spec, a line is
a bot command if, after removing leading and trailing whitespace, it
begins with the fixed token `bot: `; matching is anchored at the start of
the line, and the returned normalized command is the trimmed line with
whitespace collapsed.  Pure and total. -/
def get_bot_command (line : String) : Option String :=
  let t := String.mk (stripChars line.data)
  if leadsWith botCommandToken.data t.data then
    some (String.mk (collapseWSAux t.data false))
  else none

/-- The comment-diff computation of `handle_issue_comment_event`
(eessi_bot_event_handler.py lines 96-112): for a created comment the old
body is the empty string and the diff is the whole body; for an edited
comment the diff is the suffix of the new body past the old body's length
when the new body is strictly longer, else empty; any other action leaves
the diff empty. -/
def comment_diff_of (action old new : String) : String :=
  if action = "created" then
    pySlice new ("".length)
  else if action = "edited" then
    if old.length < new.length then pySlice new old.length else ""
  else ""

/-- One acknowledgement segment appended to `comment_update` for a found
bot command (eessi_bot_event_handler.py lines 123-125). -/
def botCommandAck (cmd sender : String) : String :=
  "\n- received bot command " ++ ("`" ++ cmd ++ "`" ++ " from `" ++ sender ++ "`")

/-- The body of the scanning loop of `handle_issue_comment_event`
(lines 118-131): a line that is a bot command appends an acknowledgement
segment to the update being composed, any other line leaves it unchanged. -/
def scanLine (sender acc line : String) : String :=
  match get_bot_command line with
  | some cmd => acc ++ botCommandAck cmd sender
  | none => acc

/-- The `comment_update` composed by `handle_issue_comment_event`
(lines 117-131): fold the scanning loop over the lines of the diff. -/
def comment_update_of (diff sender : String) : String :=
  (splitLines diff).foldl (scanLine sender) ""

/-- Outcome of `handle_issue_comment_event`: rejected at the permission
check; returned early on an empty update; edited the comment remotely with
the given new body; or logged that the update itself looks like a bot
command and did not edit. -/
inductive HandlerResult where
  | rejected
  | emptyUpdate
  | edited (body : String)
  | selfCommandLogged (update : String)
deriving DecidableEq

/-- Embedding of `handle_issue_comment_event` (eessi_bot_event_handler.py
lines 57-154).  `ccp` is the external `check_command_permission`
collaborator (tools/permissions.py, not in the sources at hand); per the
handler's own log message and the spec's SenderAuthorizer contract, a
`true` result means the sender fails the check (has no permission) and the
handler returns at once.  `old` is `changes.body.from`, `new` the comment
body, and the remote edit writes `comment_new + comment_update`. -/
def handle_issue_comment_event (ccp : String → Bool)
    (action old new sender : String) : HandlerResult :=
  if ccp sender then HandlerResult.rejected
  else
    let comment_diff := comment_diff_of action old new
    let comment_update := comment_update_of comment_diff sender
    if comment_update = "" then HandlerResult.emptyUpdate
    else if !((splitLines comment_update).any fun l => (get_bot_command l).isSome) then
      HandlerResult.edited (new ++ comment_update)
    else HandlerResult.selfCommandLogged comment_update

/-- External effects performed by `handle_pull_request_labeled_event`:
whether `submit_build_jobs` ran, whether `deploy_built_artefacts` ran, and
whether the no-handler message was logged. -/
structure PRLabelEffect where
  submitted : Bool
  deployed : Bool
  loggedNoHandler : Bool
deriving DecidableEq

/-- Embedding of `handle_pull_request_labeled_event`
(eessi_bot_event_handler.py lines 167-185).  `buildPermOk` is the result
of the external `check_build_permission` collaborator (tasks/build.py, not
in the sources at hand): for label `bot:build` the build jobs are
submitted exactly when it holds; label `bot:deploy` deploys; any other
label only logs that no handler exists. -/
def handle_pull_request_labeled_event (label : String) (buildPermOk : Bool) :
    PRLabelEffect :=
  if label = "bot:build" then ⟨buildPermOk, false, false⟩
  else if label = "bot:deploy" then ⟨false, true, false⟩
  else ⟨false, false, true⟩

/-- Outcome of one fetch (`pr.get_issue_comment`) by `update_comment`:
the remote call raises, succeeds with no such comment, or succeeds with
the comment object. -/
inductive FetchResult where
  | throws
  | missing
  | found
deriving DecidableEq

/-- The suffix value passed to `update_comment`: a Python string, or a
value of another type (the tests pass the integer 42). -/
inductive PyVal where
  | str (s : String)
  | intVal (n : Int)
deriving DecidableEq

/-- Python's string conversion of the suffix, as used in the diagnostic
log message. -/
def pyStr : PyVal → String
  | PyVal.str s => s
  | PyVal.intVal n => toString n

/-- Python's `body + update`: string concatenation when the update is a
string, a TypeError (modelled as `none`) otherwise. -/
def addSuffix : String → PyVal → Option String
  | b, PyVal.str s => some (b ++ s)
  | _, PyVal.intVal _ => none

/-- Observable state of one `update_comment` run: the remote comment
body, the number of fetch calls and of edit calls made so far, and the
log messages written. -/
structure UpdateState where
  body : String
  fetchCalls : Nat
  editCalls : Nat
  logs : List String
deriving DecidableEq

/-- The diagnostic written when the fetched comment is absent. -/
def noCommentMsg (cid : Nat) (update : PyVal) : String :=
  "no comment with id " ++ toString cid ++ ", skipping update '" ++ pyStr update ++ "'"

/-- Modelled from the spec: one attempt of `update_comment` of
tools/pr_comments.py, which is not part of the sources at hand (only its
tests are).  Fetch the comment; a raising fetch fails the attempt; an
absent comment logs the diagnostic and succeeds without writing; a found
comment is edited with `body + update`, where a non-string update raises
before the edit is called, and a raising edit fails the attempt.
`fetch` gives the outcome of the n-th fetch call overall, `editThrows`
whether the remote edit call raises.  The boolean result is `true` when
the attempt completed without raising. -/
def updateAttempt (fetch : Nat → FetchResult) (editThrows : Bool) (cid : Nat)
    (update : PyVal) (s : UpdateState) : Bool × UpdateState :=
  match fetch s.fetchCalls with
  | FetchResult.throws => (false, ⟨s.body, s.fetchCalls + 1, s.editCalls, s.logs⟩)
  | FetchResult.missing =>
      (true, ⟨s.body, s.fetchCalls + 1, s.editCalls, s.logs ++ [noCommentMsg cid update]⟩)
  | FetchResult.found =>
      match addSuffix s.body update with
      | none => (false, ⟨s.body, s.fetchCalls + 1, s.editCalls, s.logs⟩)
      | some nb =>
        if editThrows then (false, ⟨s.body, s.fetchCalls + 1, s.editCalls + 1, s.logs⟩)
        else (true, ⟨nb, s.fetchCalls + 1, s.editCalls + 1, s.logs⟩)

/-- Modelled from the spec: the retry loop of `update_comment` — the whole
fetch-then-edit attempt is retried as a unit, re-fetching the comment on
each retry, until an attempt succeeds or the budget of total attempts is
exhausted; a `false` result is the propagated failure of the last
attempt. -/
def updateLoop (fetch : Nat → FetchResult) (editThrows : Bool) (cid : Nat)
    (update : PyVal) : Nat → UpdateState → Bool × UpdateState
  | 0, s => (false, s)
  | n + 1, s =>
    match updateAttempt fetch editThrows cid update s with
    | (true, s1) => (true, s1)
    | (false, s1) => updateLoop fetch editThrows cid update n s1

/-- Modelled from the spec: `update_comment(cmnt_id, pr, update)` of
tools/pr_comments.py with a retry budget of `max_retries` total attempts
(the first attempt counts toward the budget), starting from a remote
comment body `body0` with no calls made and nothing logged. -/
def update_comment (fetch : Nat → FetchResult) (editThrows : Bool) (cid : Nat)
    (update : PyVal) (body0 : String) (max_retries : Nat) : Bool × UpdateState :=
  updateLoop fetch editThrows cid update max_retries ⟨body0, 0, 0, []⟩

/-- The fixed text that opens every acknowledgement line of a composed
comment update. -/
def ackMarker : String := "- received bot command "

/-- The acknowledgement segment without its leading newline: the single
line it contributes to the composed update. -/
def ackLine (cmd sender : String) : String :=
  "- received bot command " ++ ("`" ++ cmd ++ "`" ++ " from `" ++ sender ++ "`")

/-- A well-shaped composed update: every line is empty or opens with the
acknowledgement marker. -/
def GoodUpdate (u : String) : Prop :=
  ∀ l ∈ splitLines u, l = "" ∨ leadsWith ackMarker.data l.data = true

theorem data_mk (l : List Char) : (String.mk l).data = l := rfl

theorem mk_data (s : String) : String.mk s.data = s := rfl

theorem data_append (a b : String) : (a ++ b).data = a.data ++ b.data := rfl

theorem mk_append (a b : List Char) : String.mk a ++ String.mk b = String.mk (a ++ b) := rfl

theorem leadsWith_append_self (p t : List Char) : leadsWith p (p ++ t) = true := by
  induction p with
  | nil => rfl
  | cons a as ih => simp [leadsWith, ih]

theorem eq_append_of_leadsWith (p : List Char) :
    ∀ l, leadsWith p l = true → ∃ t, l = p ++ t := by
  induction p with
  | nil => exact fun l _ => ⟨l, rfl⟩
  | cons a as ih =>
    intro l h
    cases l with
    | nil => simp [leadsWith] at h
    | cons b bs =>
      simp only [leadsWith] at h
      by_cases hab : a = b
      · rw [if_pos hab] at h
        rcases ih bs h with ⟨t, ht⟩
        exact ⟨t, by rw [ht, hab]; rfl⟩
      · rw [if_neg hab] at h
        exact absurd h (by simp)

theorem splitLinesAux_append_newline (xs ys : List Char) :
    ∀ acc, splitLinesAux (xs ++ '\n' :: ys) acc
      = splitLinesAux xs acc ++ splitLinesAux ys [] := by
  induction xs with
  | nil => intro acc; simp [splitLinesAux]
  | cons c cs ih =>
    intro acc
    by_cases hc : c = '\n'
    · subst hc; simp [splitLinesAux, ih]
    · simp [splitLinesAux, hc, ih]

theorem splitLinesAux_of_no_newline (xs : List Char) :
    ∀ acc, (∀ c ∈ xs, c ≠ '\n') →
      splitLinesAux xs acc = [String.mk (acc.reverse ++ xs)] := by
  induction xs with
  | nil => intro acc _; simp [splitLinesAux]
  | cons c cs ih =>
    intro acc h
    have hc : c ≠ '\n' := h c (by simp)
    have hcs : ∀ d ∈ cs, d ≠ '\n' := fun d hd => h d (by simp [hd])
    rw [splitLinesAux, if_neg hc, ih (c :: acc) hcs]
    simp

theorem mem_collapseWS (l : List Char) :
    ∀ b x, x ∈ collapseWSAux l b → x = ' ' ∨ x.isWhitespace = false := by
  induction l with
  | nil => intro b x hx; simp [collapseWSAux] at hx
  | cons c cs ih =>
    intro b x hx
    by_cases hw : c.isWhitespace
    · cases b with
      | true =>
        simp only [collapseWSAux, hw, if_true] at hx
        exact ih true x hx
      | false =>
        simp only [collapseWSAux, hw, if_true, Bool.false_eq_true, if_false,
          List.mem_cons] at hx
        rcases hx with hx | hx
        · exact Or.inl hx
        · exact ih true x hx
    · simp only [collapseWSAux, hw, Bool.false_eq_true, if_false, List.mem_cons] at hx
      rcases hx with hx | hx
      · subst hx
        exact Or.inr (by simpa using hw)
      · exact ih false x hx

theorem get_bot_command_no_newline {l cmd : String}
    (h : get_bot_command l = some cmd) : '\n' ∉ cmd.data := by
  by_cases hc : leadsWith botCommandToken.data (stripChars l.data) = true
  · have hcmd : String.mk (collapseWSAux (stripChars l.data) false) = cmd := by
      simpa [get_bot_command, data_mk, hc] using h
    subst hcmd
    intro hmem
    rcases mem_collapseWS _ _ _ hmem with h1 | h1
    · exact absurd h1 (by decide)
    · exact absurd h1 (by decide)
  · exfalso
    simp [get_bot_command, data_mk, hc] at h

theorem dropWhile_append_singleton {p : Char → Bool} {c : Char} (hc : ¬ p c = true) :
    ∀ xs : List Char, ∃ ys, List.dropWhile p (xs ++ [c]) = ys ++ [c] := by
  intro xs
  induction xs with
  | nil => exact ⟨[], by simp [List.dropWhile_cons, hc]⟩
  | cons x xs ih =>
    by_cases hx : p x = true
    · rcases ih with ⟨ys, hys⟩
      exact ⟨ys, by simp [List.dropWhile_cons, hx, hys]⟩
    · exact ⟨x :: xs, by simp [List.dropWhile_cons, hx]⟩

theorem stripChars_cons_of_not_ws (c : Char) (hc : ¬ c.isWhitespace = true)
    (l : List Char) : ∃ m, stripChars (c :: l) = c :: m := by
  unfold stripChars dropTrailingWS
  rw [List.dropWhile_cons, if_neg hc, List.reverse_cons]
  rcases dropWhile_append_singleton hc l.reverse with ⟨ys, hys⟩
  rw [hys, List.reverse_append, List.reverse_singleton]
  exact ⟨ys.reverse, rfl⟩

theorem leadsWith_token_dash (m : List Char) :
    leadsWith botCommandToken.data ('-' :: m) = false := by
  have h : botCommandToken.data = 'b' :: "ot: ".data := rfl
  rw [h]
  simp only [leadsWith]
  rw [if_neg (by decide)]

theorem get_bot_command_dash_none {s : String} {r : List Char}
    (hs : s.data = '-' :: r) : get_bot_command s = none := by
  rcases stripChars_cons_of_not_ws '-' (by decide) r with ⟨m, hm⟩
  simp [get_bot_command, data_mk, hs, hm, leadsWith_token_dash]

theorem no_newline_append {a b : String} (ha : '\n' ∉ a.data) (hb : '\n' ∉ b.data) :
    '\n' ∉ (a ++ b).data := by
  rw [data_append]
  intro h
  rcases List.mem_append.mp h with h | h
  · exact ha h
  · exact hb h

theorem ackLine_no_newline {cmd sender : String} (hcmd : '\n' ∉ cmd.data)
    (hs : '\n' ∉ sender.data) : '\n' ∉ (ackLine cmd sender).data := by
  intro h
  simp only [ackLine, data_append, List.mem_append] at h
  rcases h with h | (((((h | h) | h) | h) | h) | h)
  · exact absurd h (by decide)
  · exact absurd h (by decide)
  · exact hcmd h
  · exact absurd h (by decide)
  · exact absurd h (by decide)
  · exact hs h
  · exact absurd h (by decide)

theorem botCommandAck_data (cmd sender : String) :
    (botCommandAck cmd sender).data = '\n' :: (ackLine cmd sender).data := by
  have h : ("\n- received bot command " : String).data
      = '\n' :: ("- received bot command " : String).data := rfl
  simp [botCommandAck, ackLine, data_append, h]

theorem ackLine_marker (cmd sender : String) :
    leadsWith ackMarker.data (ackLine cmd sender).data = true := by
  have h : (ackLine cmd sender).data
      = ackMarker.data ++ ("`" ++ cmd ++ "`" ++ " from `" ++ sender ++ "`").data := by
    simp [ackLine, ackMarker, data_append]
  rw [h]
  exact leadsWith_append_self _ _

theorem good_empty : GoodUpdate "" := by
  intro l hl
  have h : splitLines "" = [""] := rfl
  rw [h] at hl
  simp only [List.mem_singleton] at hl
  exact Or.inl hl

theorem goodUpdate_append_ack {u : String} (hu : GoodUpdate u)
    {cmd sender : String} (hcmd : '\n' ∉ cmd.data) (hs : '\n' ∉ sender.data) :
    GoodUpdate (u ++ botCommandAck cmd sender) := by
  have hnl : '\n' ∉ (ackLine cmd sender).data := ackLine_no_newline hcmd hs
  have hone : splitLinesAux (ackLine cmd sender).data [] = [ackLine cmd sender] := by
    rw [splitLinesAux_of_no_newline _ [] (fun c hc hceq => hnl (hceq ▸ hc))]
    simp [mk_data]
  have hsplit : splitLines (u ++ botCommandAck cmd sender)
      = splitLines u ++ [ackLine cmd sender] := by
    unfold splitLines
    rw [data_append, botCommandAck_data, splitLinesAux_append_newline, hone]
  intro l hl
  rw [hsplit] at hl
  rcases List.mem_append.mp hl with h | h
  · exact hu l h
  · rw [List.mem_singleton] at h
    subst h
    exact Or.inr (ackLine_marker cmd sender)

theorem comment_update_good_aux (sender : String) (hs : '\n' ∉ sender.data) :
    ∀ (lines : List String) (acc : String), GoodUpdate acc →
      GoodUpdate (lines.foldl (scanLine sender) acc) := by
  intro lines
  induction lines with
  | nil => intro acc h; simpa using h
  | cons line ls ih =>
    intro acc hacc
    rw [List.foldl_cons]
    cases hgb : get_bot_command line with
    | none =>
      have h : scanLine sender acc line = acc := by simp [scanLine, hgb]
      rw [h]
      exact ih acc hacc
    | some cmd =>
      have h : scanLine sender acc line = acc ++ botCommandAck cmd sender := by
        simp [scanLine, hgb]
      rw [h]
      exact ih _ (goodUpdate_append_ack hacc (get_bot_command_no_newline hgb) hs)

theorem comment_update_good (diff sender : String) (hs : '\n' ∉ sender.data) :
    GoodUpdate (comment_update_of diff sender) :=
  comment_update_good_aux sender hs (splitLines diff) "" good_empty

theorem goodUpdate_no_command {u : String} (hu : GoodUpdate u) :
    ∀ l ∈ splitLines u, get_bot_command l = none := by
  intro l hl
  rcases hu l hl with h | h
  · subst h; rfl
  · rcases eq_append_of_leadsWith _ _ h with ⟨t, ht⟩
    have hd : l.data = '-' :: (" received bot command ".data ++ t) := by
      rw [ht]; rfl
    exact get_bot_command_dash_none hd

theorem goodUpdate_any_false {u : String} (hu : GoodUpdate u) :
    ((splitLines u).any fun l => (get_bot_command l).isSome) = false := by
  rw [List.any_eq_false]
  intro l hl
  simp [goodUpdate_no_command hu l hl]

/-- Claim C1: whenever any line of the composed comment update itself
matches `get_bot_command`, `handle_issue_comment_event` never performs the
remote comment edit for that update — it only logs the event (the
self-command guard branch is taken). -/
theorem C1_self_command_guard (ccp : String → Bool) (action old new sender : String)
    (hp : ccp sender = false)
    (_hd : ∃ l ∈ splitLines (comment_diff_of action old new),
      (get_bot_command l).isSome = true)
    (hu : ∃ l ∈ splitLines (comment_update_of (comment_diff_of action old new) sender),
      (get_bot_command l).isSome = true) :
    handle_issue_comment_event ccp action old new sender
      = HandlerResult.selfCommandLogged
          (comment_update_of (comment_diff_of action old new) sender) := by
  have hne : comment_update_of (comment_diff_of action old new) sender ≠ "" := by
    intro he
    rcases hu with ⟨l, hl, hsome⟩
    rw [he] at hl
    have hone : splitLines "" = [""] := rfl
    rw [hone, List.mem_singleton] at hl
    subst hl
    simp [show get_bot_command "" = none from rfl] at hsome
  have hany : ((splitLines (comment_update_of (comment_diff_of action old new) sender)).any
      fun l => (get_bot_command l).isSome) = true := by
    rw [List.any_eq_true]
    rcases hu with ⟨l, hl, hsome⟩
    exact ⟨l, hl, hsome⟩
  simp [handle_issue_comment_event, hp, hne, hany]

/-- Witness for C1: a concrete event (sender login containing a newline
followed by a command) whose composed update contains a matching line, on
which the handler takes the logging branch and performs no edit. -/
theorem C1_self_command_guard_witness :
    handle_issue_comment_event (fun _ => false) "created" "" "bot: build" "x\nbot: build"
      = HandlerResult.selfCommandLogged
          (comment_update_of (comment_diff_of "created" "" "bot: build") "x\nbot: build") :=
  C1_self_command_guard (fun _ => false) "created" "" "bot: build" "x\nbot: build"
    rfl (by decide) (by decide)

/-- Claim C2: the comment diff is the whole new body for action
`created`; for `edited` it is the suffix of the new body past the old
body's length when the new body is strictly longer (so the prefix of the
old body's length followed by the diff reassembles the new body), and
empty when the new body is the same length or shorter. -/
theorem C2_comment_differ (old new : String) :
    comment_diff_of "created" old new = new
    ∧ (old.length < new.length →
        (comment_diff_of "edited" old new).data = new.data.drop old.length
        ∧ String.mk (new.data.take old.length) ++ comment_diff_of "edited" old new = new)
    ∧ (new.length ≤ old.length → comment_diff_of "edited" old new = "") := by
  refine ⟨?_, fun h => ⟨?_, ?_⟩, fun h => ?_⟩
  · unfold comment_diff_of
    rw [if_pos rfl]
    show String.mk (new.data.drop 0) = new
    rw [List.drop_zero, mk_data]
  · unfold comment_diff_of
    rw [if_neg (by decide), if_pos rfl, if_pos h]
    rfl
  · unfold comment_diff_of
    rw [if_neg (by decide), if_pos rfl, if_pos h]
    show String.mk (new.data.take old.length) ++ String.mk (new.data.drop old.length) = new
    rw [mk_append, List.take_append_drop, mk_data]
  · unfold comment_diff_of
    rw [if_neg (by decide), if_pos rfl, if_neg (Nat.not_lt.mpr h)]

/-- Witness for C2: the spec's three concrete examples. -/
theorem C2_comment_differ_witness :
    comment_diff_of "created" "" "hello" = "hello"
    ∧ (comment_diff_of "edited" "ab" "abcd").data = "abcd".data.drop 2
    ∧ comment_diff_of "edited" "abcd" "ab" = "" :=
  ⟨(C2_comment_differ "" "hello").1,
   ((C2_comment_differ "ab" "abcd").2.1 (by decide)).1,
   (C2_comment_differ "abcd" "ab").2.2 (by decide)⟩

/-- Claim C3: a sender failing the permission check (the external
`check_command_permission` returning true, i.e. `is_authorized` false) is
rejected before any diffing, scanning or updating; an authorized sender
proceeds past the check to one of the post-scan outcomes. -/
theorem C3_sender_authorization (ccp : String → Bool) (action old new sender : String) :
    (ccp sender = true →
      handle_issue_comment_event ccp action old new sender = HandlerResult.rejected)
    ∧ (ccp sender = false →
      handle_issue_comment_event ccp action old new sender = HandlerResult.emptyUpdate
      ∨ (∃ b, handle_issue_comment_event ccp action old new sender
            = HandlerResult.edited b)
      ∨ (∃ u, handle_issue_comment_event ccp action old new sender
            = HandlerResult.selfCommandLogged u)) := by
  constructor
  · intro h
    simp [handle_issue_comment_event, h]
  · intro h
    by_cases he : comment_update_of (comment_diff_of action old new) sender = ""
    · left
      simp [handle_issue_comment_event, h, he]
    · cases ha : (splitLines (comment_update_of (comment_diff_of action old new) sender)).any
          (fun l => (get_bot_command l).isSome) with
      | true =>
        right; right
        exact ⟨comment_update_of (comment_diff_of action old new) sender,
          by simp [handle_issue_comment_event, h, he, ha]⟩
      | false =>
        right; left
        exact ⟨new ++ comment_update_of (comment_diff_of action old new) sender,
          by simp [handle_issue_comment_event, h, he, ha]⟩

/-- Witness for C3: with a permission check rejecting exactly the login
`robot`, an event from `robot` is rejected while one from `alice`
proceeds past authorization. -/
theorem C3_sender_authorization_witness :
    handle_issue_comment_event (fun l => l == "robot") "created" "" "hello" "robot"
      = HandlerResult.rejected
    ∧ (handle_issue_comment_event (fun l => l == "robot") "created" "" "hello" "alice"
        = HandlerResult.emptyUpdate
      ∨ (∃ b, handle_issue_comment_event (fun l => l == "robot") "created" "" "hello" "alice"
            = HandlerResult.edited b)
      ∨ (∃ u, handle_issue_comment_event (fun l => l == "robot") "created" "" "hello" "alice"
            = HandlerResult.selfCommandLogged u)) :=
  ⟨(C3_sender_authorization (fun l => l == "robot") "created" "" "hello" "robot").1 (by decide),
   (C3_sender_authorization (fun l => l == "robot") "created" "" "hello" "alice").2 (by decide)⟩

/-- Claim C4: with max_retries = 3, a fetch that fails every attempt
makes exactly 3 fetch calls, propagates the failure, and leaves the body
unchanged; an edit that fails every attempt (and likewise a non-string
suffix, which raises before the edit call) exhausts the same budget of 3
attempts and propagates, with the body unchanged. -/
theorem C4_retry_exhaustion (fetch : Nat → FetchResult) (cid : Nat) (b su : String)
    (n : Int) :
    ((∀ k, fetch k = FetchResult.throws) → ∀ e u,
      update_comment fetch e cid u b 3 = (false, ⟨b, 3, 0, []⟩))
    ∧ ((∀ k, fetch k = FetchResult.found) →
      update_comment fetch true cid (PyVal.str su) b 3 = (false, ⟨b, 3, 3, []⟩))
    ∧ ((∀ k, fetch k = FetchResult.found) → ∀ e,
      update_comment fetch e cid (PyVal.intVal n) b 3 = (false, ⟨b, 3, 0, []⟩)) := by
  refine ⟨fun hf e u => ?_, fun hf => ?_, fun hf e => ?_⟩
  all_goals simp [update_comment, updateLoop, updateAttempt, hf, addSuffix]

/-- Witness for C4: the three failure modes of the tests, evaluated on
the mock comment body. -/
theorem C4_retry_exhaustion_witness :
    update_comment (fun _ => FetchResult.throws) false 0 (PyVal.str "body-0")
        "__ORG-comment__" 3 = (false, ⟨"__ORG-comment__", 3, 0, []⟩)
    ∧ update_comment (fun _ => FetchResult.found) true 0 (PyVal.str "raise")
        "__ORG-comment__" 3 = (false, ⟨"__ORG-comment__", 3, 3, []⟩)
    ∧ update_comment (fun _ => FetchResult.found) false 0 (PyVal.intVal 42)
        "__ORG-comment__" 3 = (false, ⟨"__ORG-comment__", 3, 0, []⟩) :=
  ⟨(C4_retry_exhaustion (fun _ => FetchResult.throws) 0 "__ORG-comment__" "raise" 42).1
      (fun _ => rfl) false (PyVal.str "body-0"),
   (C4_retry_exhaustion (fun _ => FetchResult.found) 0 "__ORG-comment__" "raise" 42).2.1
      (fun _ => rfl),
   (C4_retry_exhaustion (fun _ => FetchResult.found) 0 "__ORG-comment__" "raise" 42).2.2
      (fun _ => rfl) false⟩

theorem updateLoop_success_body (fetch : Nat → FetchResult) (cid : Nat) (su : String) :
    ∀ (fuel : Nat) (s s' : UpdateState),
      updateLoop fetch false cid (PyVal.str su) fuel s = (true, s') →
      s.editCalls < s'.editCalls → s'.body = s.body ++ su := by
  intro fuel
  induction fuel with
  | zero => intro s s' h _; simp [updateLoop] at h
  | succ m ih =>
    intro s s' h hlt
    rw [updateLoop] at h
    cases hf : fetch s.fetchCalls with
    | throws =>
      simp only [updateAttempt, hf] at h
      exact ih ⟨s.body, s.fetchCalls + 1, s.editCalls, s.logs⟩ s' h hlt
    | missing =>
      simp only [updateAttempt, hf] at h
      rw [Prod.mk.injEq] at h
      rw [← h.2] at hlt
      exact absurd hlt (lt_irrefl _)
    | found =>
      simp only [updateAttempt, hf, addSuffix, Bool.false_eq_true, if_false] at h
      rw [Prod.mk.injEq] at h
      rw [← h.2]

/-- Claim C5: whenever `update_comment` succeeds and the write was
performed, the resulting remote body is the fetched old body concatenated
with the new suffix. -/
theorem C5_success_concat (fetch : Nat → FetchResult) (cid : Nat) (su b : String)
    (s' : UpdateState)
    (h : update_comment fetch false cid (PyVal.str su) b 3 = (true, s'))
    (he : 1 ≤ s'.editCalls) : s'.body = b ++ su := by
  have hres := updateLoop_success_body fetch cid su 3 ⟨b, 0, 0, []⟩ s' h (by simpa using he)
  simpa using hres

/-- Witness for C5: a fetch failing once then succeeding yields 2 fetch
calls and a body equal to old body plus suffix. -/
theorem C5_success_concat_witness :
    (⟨"__ORG-comment__body-0", 2, 1, []⟩ : UpdateState).body
      = "__ORG-comment__" ++ "body-0" :=
  C5_success_concat (fun k => if k = 0 then FetchResult.throws else FetchResult.found)
    0 "body-0" "__ORG-comment__" ⟨"__ORG-comment__body-0", 2, 1, []⟩
    (by decide) (by decide)

/-- Claim C6: when the fetch succeeds but finds no comment,
`update_comment` logs the diagnostic, performs no edit call, leaves the
body unchanged, and returns successfully. -/
theorem C6_missing_benign (fetch : Nat → FetchResult) (e : Bool) (cid : Nat)
    (su b : String) (k : Nat) (hk : k < 3)
    (hthrows : ∀ j, j < k → fetch j = FetchResult.throws)
    (hmiss : fetch k = FetchResult.missing) :
    update_comment fetch e cid (PyVal.str su) b 3
      = (true, ⟨b, k + 1, 0, [noCommentMsg cid (PyVal.str su)]⟩) := by
  interval_cases k
  · simp [update_comment, updateLoop, updateAttempt, hmiss]
  · simp [update_comment, updateLoop, updateAttempt, hmiss, hthrows 0 (by norm_num)]
  · simp [update_comment, updateLoop, updateAttempt, hmiss,
      hthrows 0 (by norm_num), hthrows 1 (by norm_num)]

/-- Witness for C6: the fetch immediately reports the comment absent; the
run succeeds with one fetch call, no edit call, and the diagnostic
logged. -/
theorem C6_missing_benign_witness :
    update_comment (fun _ => FetchResult.missing) false 0 (PyVal.str "body-0")
        "__ORG-comment__" 3
      = (true, ⟨"__ORG-comment__", 1, 0, [noCommentMsg 0 (PyVal.str "body-0")]⟩) :=
  C6_missing_benign (fun _ => FetchResult.missing) false 0 "body-0" "__ORG-comment__" 0
    (by norm_num) (fun j hj => absurd hj (Nat.not_lt_zero j)) rfl

/-- Claim C7: a pull_request labeled event dispatches label `bot:build`
to the build submission exactly when the build permission check passes,
label `bot:deploy` to the deploy path, and any other label to a logged
no-op. -/
theorem C7_label_dispatch (label : String) (perm : Bool) :
    (label = "bot:build" →
      handle_pull_request_labeled_event label perm = ⟨perm, false, false⟩)
    ∧ (label = "bot:deploy" →
      handle_pull_request_labeled_event label perm = ⟨false, true, false⟩)
    ∧ (label ≠ "bot:build" → label ≠ "bot:deploy" →
      handle_pull_request_labeled_event label perm = ⟨false, false, true⟩) := by
  refine ⟨fun h => ?_, fun h => ?_, fun h1 h2 => ?_⟩
  · subst h
    unfold handle_pull_request_labeled_event
    rw [if_pos rfl]
  · subst h
    unfold handle_pull_request_labeled_event
    rw [if_neg (by decide), if_pos rfl]
  · unfold handle_pull_request_labeled_event
    rw [if_neg h1, if_neg h2]

/-- Witness for C7: the build label with and without permission, the
deploy label, and an unknown label. -/
theorem C7_label_dispatch_witness :
    handle_pull_request_labeled_event "bot:build" true = ⟨true, false, false⟩
    ∧ handle_pull_request_labeled_event "bot:build" false = ⟨false, false, false⟩
    ∧ handle_pull_request_labeled_event "bot:deploy" false = ⟨false, true, false⟩
    ∧ handle_pull_request_labeled_event "bot:unknown" true = ⟨false, false, true⟩ :=
  ⟨(C7_label_dispatch "bot:build" true).1 rfl,
   (C7_label_dispatch "bot:build" false).1 rfl,
   (C7_label_dispatch "bot:deploy" false).2.1 rfl,
   (C7_label_dispatch "bot:unknown" true).2.2 (by decide) (by decide)⟩

/-- Claim C8: `get_bot_command` is a pure total function on one line; a
line whose trimmed form does not open with the command token yields
nothing (so matching is anchored: `text bot: rebuild` yields nothing),
while `bot: rebuild arch:intel` yields a normalized command containing
`rebuild` and `arch:intel`. -/
theorem C8_command_matcher :
    (∀ s : String, leadsWith botCommandToken.data (stripChars s.data) = false →
      get_bot_command s = none)
    ∧ get_bot_command "text bot: rebuild" = none
    ∧ get_bot_command "bot: rebuild arch:intel" = some "bot: rebuild arch:intel"
    ∧ hasRun "rebuild".data "bot: rebuild arch:intel".data = true
    ∧ hasRun "arch:intel".data "bot: rebuild arch:intel".data = true := by
  refine ⟨fun s h => ?_, by decide, by decide, by decide, by decide⟩
  simp [get_bot_command, data_mk, h]

/-- Witness for C8: a plain prose line yields no command. -/
theorem C8_command_matcher_witness : get_bot_command "some unrelated text" = none :=
  C8_command_matcher.1 "some unrelated text" (by decide)

/-- Claim C9: for a sender login without newlines, every line of a
composed comment update is empty or opens with the acknowledgement
marker, and whenever the composed update is non-empty the handler takes
the branch that performs the edit (the self-command guard passes). -/
theorem C9_update_shape (ccp : String → Bool) (action old new sender : String)
    (hp : ccp sender = false) (hs : '\n' ∉ sender.data) :
    (∀ l ∈ splitLines (comment_update_of (comment_diff_of action old new) sender),
      l = "" ∨ leadsWith ackMarker.data l.data = true)
    ∧ (comment_update_of (comment_diff_of action old new) sender ≠ "" →
        handle_issue_comment_event ccp action old new sender
          = HandlerResult.edited
              (new ++ comment_update_of (comment_diff_of action old new) sender)) := by
  have hgood : GoodUpdate (comment_update_of (comment_diff_of action old new) sender) :=
    comment_update_good _ sender hs
  refine ⟨hgood, fun hne => ?_⟩
  have hany := goodUpdate_any_false hgood
  simp [handle_issue_comment_event, hp, hne, hany]

/-- Witness for C9: a created comment carrying one command from a normal
login produces a well-shaped update and the handler edits the comment. -/
theorem C9_update_shape_witness :
    (∀ l ∈ splitLines (comment_update_of (comment_diff_of "created" "" "bot: build") "boegel"),
      l = "" ∨ leadsWith ackMarker.data l.data = true)
    ∧ handle_issue_comment_event (fun _ => false) "created" "" "bot: build" "boegel"
        = HandlerResult.edited
            ("bot: build" ++ comment_update_of (comment_diff_of "created" "" "bot: build") "boegel") :=
  ⟨(C9_update_shape (fun _ => false) "created" "" "bot: build" "boegel" rfl (by decide)).1,
   (C9_update_shape (fun _ => false) "created" "" "bot: build" "boegel" rfl (by decide)).2
     (by decide)⟩

/-- Claim C10: an issue-comment action that is neither `created` nor
`edited` leaves the diff empty, so the handler composes an empty update
and returns early; no remote comment edit happens. -/
theorem C10_other_action_frame (ccp : String → Bool) (action old new sender : String)
    (h1 : action ≠ "created") (h2 : action ≠ "edited") :
    comment_diff_of action old new = ""
    ∧ (ccp sender = false →
        handle_issue_comment_event ccp action old new sender = HandlerResult.emptyUpdate)
    ∧ ∀ b, handle_issue_comment_event ccp action old new sender ≠ HandlerResult.edited b := by
  have hdiff : comment_diff_of action old new = "" := by
    unfold comment_diff_of
    rw [if_neg h1, if_neg h2]
  have hupd : comment_update_of (comment_diff_of action old new) sender = "" := by
    rw [hdiff]; rfl
  refine ⟨hdiff, fun hp => ?_, fun b => ?_⟩
  · simp [handle_issue_comment_event, hp, hupd]
  · cases hc : ccp sender with
    | true => simp [handle_issue_comment_event, hc]
    | false => simp [handle_issue_comment_event, hc, hupd]

/-- Witness for C10: a deleted-comment event: the diff is empty and the
handler returns with the empty update. -/
theorem C10_other_action_frame_witness :
    comment_diff_of "deleted" "old text" "new text" = ""
    ∧ handle_issue_comment_event (fun _ => false) "deleted" "old text" "new text" "alice"
        = HandlerResult.emptyUpdate :=
  ⟨(C10_other_action_frame (fun _ => false) "deleted" "old text" "new text" "alice"
      (by decide) (by decide)).1,
   (C10_other_action_frame (fun _ => false) "deleted" "old text" "new text" "alice"
      (by decide) (by decide)).2.1 rfl⟩

end EessiBot
